import Mathlib

/-!
Verification of the oneflow stream/instruction core against its
natural-language specification.  The definitions below are a shallow
embedding of the C++ sources under `oneflow/core/vm/` and
`oneflow/core/ep/common/primitive/broadcast_elementwise_unary.h`.
Where an implementation is not part of the provided sources (only its
declaration or callers are), the definition is modelled from the spec and
its doc comment says so.
-/

namespace OneflowVm

/-! ## LogicalObjectId (`logical_object_id.msg.h`)

The header declares a flat-message oneof `ptr_type` with two `uint64_t`
alternatives, `remote_value` and `local_value`, and equality by `memcmp`
over the full message. -/

/-- The oneof case tag of `LogicalObjectId.ptr_type`
(`remote_value` vs `local_value`). -/
inductive PtrTypeCase where
  | remote_value
  | local_value
deriving DecidableEq, Repr

/-- `LogicalObjectId`: a tagged union of `{remote_value : uint64,
local_value : uint64}` (`FLAT_MSG_DEFINE_ONEOF(ptr_type, ...)`).
The numeric payload is a `Nat` constrained to `< 2^64` where it matters. -/
structure LogicalObjectId where
  ptr_type : PtrTypeCase
  payload : Nat
deriving DecidableEq, Repr

/-- Build a `local_value` id (mirrors `set_local_value`). -/
def LogicalObjectId.mkLocal (v : Nat) : LogicalObjectId :=
  ⟨PtrTypeCase.local_value, v⟩

/-- Build a `remote_value` id (mirrors `set_remote_value`). -/
def LogicalObjectId.mkRemote (v : Nat) : LogicalObjectId :=
  ⟨PtrTypeCase.remote_value, v⟩

/-- The byte encoding of the tag in the in-memory representation. -/
def PtrTypeCase.toByte : PtrTypeCase → Nat
  | PtrTypeCase.remote_value => 0
  | PtrTypeCase.local_value => 1

/-- Little-endian byte decomposition of a value into `w` bytes, as written
to memory for a `uint64_t` field (`w = 8`). -/
def bytesLE : Nat → Nat → List Nat
  | 0, _ => []
  | w + 1, v => v % 256 :: bytesLE w (v / 256)

/-- Modelled from the spec: `FLAT_MSG_DEFINE_COMPARE_OPERATORS_BY_MEMCMP`
(the `flat_msg.h` macro implementation is not under `src/`).  The spec says
equality is byte-wise over the full in-memory representation, tag included:
the compared bytes are the oneof case tag followed by the bytes of the
active `uint64_t` field. -/
def LogicalObjectId.reprBytes (x : LogicalObjectId) : List Nat :=
  x.ptr_type.toByte :: bytesLE 8 x.payload

/-- Modelled from the spec: `operator==` of `LogicalObjectId`, a `memcmp`
of the two full tagged representations. -/
def LogicalObjectId.eqByMemcmp (x y : LogicalObjectId) : Bool :=
  x.reprBytes = y.reprBytes

/-! ## Stream and StreamType (`stream.cpp`, `device_helper_stream_type.h`,
`host_vm_stream_type.h`) -/

/-- Modelled from the spec: the `DeviceType` enum (`device->enum_type()`)
is declared outside src/; the spec speaks of device kinds such as CPU and
accelerator. -/
inductive DeviceType where
  | kInvalidDevice
  | kCPU
  | kGPU
deriving DecidableEq, Repr

/-- Modelled from the spec: the `StreamRole` enum is declared outside
src/; the spec describes roles such as compute vs host-transfer. -/
inductive StreamRole where
  | kCompute
  | kHost2Device
  | kDevice2Host
deriving DecidableEq, Repr

/-- The `StreamType` implementations appearing in the sources:
`DeviceHelperStreamType` (`device_helper_stream_type.h`) and the legacy
`HostVmStreamType` (`host_vm_stream_type.h`). -/
inductive StreamTypeTag where
  | deviceHelper
  | hostVm
deriving DecidableEq, Repr

/-- `device_tag()`: `DeviceHelperStreamType::device_tag` returns `"cpu"`
(`device_helper_stream_type.h`, line 18).  The legacy host type is likewise
a synchronous host/CPU backend (modelled from the spec: its tag is not in
src/). -/
def StreamTypeTag.device_tag : StreamTypeTag → String
  | StreamTypeTag.deviceHelper => "cpu"
  | StreamTypeTag.hostVm => "cpu"

/-- The read-only `Device` collaborator (`framework/device.h`, outside
src/): a value exposing `device_id()` and `enum_type()`, used read-only by
`Stream`. -/
structure Device where
  device_id : Int
  enum_type : DeviceType
deriving DecidableEq, Repr

/-- The owning `ThreadCtx` back-reference; opaque at this layer. -/
structure ThreadCtx where
  ctx_id : Nat
deriving DecidableEq, Repr

/-- Backend-specific device-context contents (side-channel state). -/
abbrev DeviceCtx := Nat

/-- `vm::Stream` (`stream.msg.h`/`stream.cpp`): thread ctx, device handle,
role, resolved stream type and exclusively owned device context.  The
device context slot starts empty (`none`), like the default-constructed
`std::unique_ptr`. -/
structure Stream where
  thread_ctx : ThreadCtx
  device : Device
  stream_role : StreamRole
  stream_type_ : StreamTypeTag
  device_ctx : Option DeviceCtx
deriving DecidableEq, Repr

/-- `DeviceHelperStreamType::InitDeviceCtx`
(`device_helper_stream_type.h`, line 20): the body is empty (`{}`), so the
device-context slot and the stream both come back unchanged. -/
def DeviceHelperStreamType.InitDeviceCtx (device_ctx : Option DeviceCtx)
    (stream : Stream) : Option DeviceCtx × Stream :=
  (device_ctx, stream)

/-- Modelled from the spec: the legacy host stream type's device-context
initialization is not under src/; a synchronous CPU backend may leave the
context empty (spec §4.2: "may be a no-op for synchronous CPU
backends"). -/
def HostVmStreamType.InitDeviceCtx (device_ctx : Option DeviceCtx)
    (stream : Stream) : Option DeviceCtx × Stream :=
  (device_ctx, stream)

/-- Virtual dispatch of `InitDeviceCtx` over the stream type. -/
def StreamTypeTag.dispatchInitDeviceCtx :
    StreamTypeTag → Option DeviceCtx → Stream → Option DeviceCtx × Stream
  | StreamTypeTag.deviceHelper => DeviceHelperStreamType.InitDeviceCtx
  | StreamTypeTag.hostVm => HostVmStreamType.InitDeviceCtx

/-- `Stream::__Init__` (`stream.cpp`, lines 26-32), parametrized by the
stream-type registry `getStreamType`, which stands for
`StreamRoleSwitch<GetStreamType>(stream_role, device->enum_type())`
(modelled from the spec: `stream_get_stream_type.h` is not under src/; the
spec describes a static registry keyed by `(StreamRole, DeviceKind)`).
`CHECK_JUST` aborts the process when the registry has no entry: the abort
is modelled as `none`.  On success the resolved stream type is stored and
is immediately asked to initialize the device context. -/
def Stream.init (getStreamType : StreamRole → DeviceType → Option StreamTypeTag)
    (thread_ctx : ThreadCtx) (device : Device) (stream_role : StreamRole) :
    Option Stream :=
  match getStreamType stream_role device.enum_type with
  | none => none
  | some st =>
      let s : Stream :=
        { thread_ctx := thread_ctx, device := device, stream_role := stream_role,
          stream_type_ := st, device_ctx := none }
      let p := st.dispatchInitDeviceCtx s.device_ctx s
      some { p.2 with device_ctx := p.1 }

/-- `Stream::device_id` (`stream.cpp`, line 34): reads through to the
owned device handle on every call, never a cached copy. -/
def Stream.device_id (s : Stream) : Int := s.device.device_id

/-- `Stream::stream_type` (`stream.cpp`, line 36). -/
def Stream.stream_type (s : Stream) : StreamTypeTag := s.stream_type_

/-- The const member functions of `Stream` (`stream.cpp`, lines 34-36),
viewed as state transformers so the absence of writes is provable. -/
inductive StreamOp where
  | opDeviceId
  | opStreamType
deriving DecidableEq, Repr

/-- Result of a `Stream` accessor call. -/
inductive StreamOpResult where
  | idRes (i : Int)
  | stRes (t : StreamTypeTag)
deriving DecidableEq, Repr

/-- Run one accessor: the post-state and the returned value. -/
def Stream.applyOp (s : Stream) : StreamOp → Stream × StreamOpResult
  | StreamOp.opDeviceId => (s, StreamOpResult.idRes s.device_id)
  | StreamOp.opStreamType => (s, StreamOpResult.stRes s.stream_type)

/-- Run a sequence of accessor calls, threading the state. -/
def Stream.runOps (s : Stream) : List StreamOp → Stream
  | [] => s
  | op :: ops => ((s.applyOp op).1).runOps ops

/-- Replace a stream's (exclusively owned) device context: a backend-side
mutation of that stream's context. -/
def Stream.setDeviceCtx (s : Stream) (c : Option DeviceCtx) : Stream :=
  { s with device_ctx := c }

/-- Mutate the device context of the `i`-th stream of a pool, leaving the
others alone (each context is exclusively owned per stream). -/
def mutateCtxAt (pool : List Stream) (i : Nat) (c : Option DeviceCtx) :
    List Stream :=
  pool.mapIdx (fun j s => if j = i then s.setDeviceCtx c else s)

/-! ## Instruction status lifecycle

The synchronous host/CPU implementations of the status-buffer operations
(`DeviceHelperStreamType::InitInstructionStatus` / `Compute` /
`QueryInstructionStatusDone` / `DeleteInstructionStatus`, and the legacy
`HostVmStreamType` counterparts) are declared in the headers but their
bodies are not under src/; the operations below are modelled from the
spec: the buffer holds a plain completion flag, `Compute` runs the payload
to completion before returning and marks the flag done as a side effect,
`Query` is a non-blocking read, `Delete` releases the buffer. -/

/-- Modelled from the spec: the status buffer's backend-defined contents
for a synchronous CPU backend: a plain completion flag, bracketed by its
`Init`/`Delete` lifecycle. -/
inductive StatusBuffer where
  | uninitialized
  | inited (done : Bool)
  | deleted
deriving DecidableEq, Repr

/-- An instruction's payload; the no-op payload is one case. -/
inductive InstructionPayload where
  | noop
  | work (steps : Nat)
deriving DecidableEq, Repr

/-- One unit of submitted work (`vm::Instruction`), reduced to its
payload: operand layout is defined by the surrounding instruction-set
layer, not this core. -/
structure Instruction where
  payload : InstructionPayload
deriving DecidableEq, Repr

/-- Modelled from the spec: `InitInstructionStatus` writes the backend's
initial bookkeeping into the caller-provided buffer: the completion flag
starts cleared. -/
def InitInstructionStatus (_stream : Stream) (_buf : StatusBuffer) :
    StatusBuffer :=
  StatusBuffer.inited false

/-- The work performed by a payload when executed (a no-op does
nothing). -/
def runPayload : InstructionPayload → Nat
  | InstructionPayload.noop => 0
  | InstructionPayload.work n => n

/-- Modelled from the spec: synchronous `Compute` executes the payload to
completion before returning and marks the status done as a side effect;
out-of-lifecycle buffers are untouched (undefined behavior by contract). -/
def Compute (_stream : Stream) (instr : Instruction) (buf : StatusBuffer) :
    Nat × StatusBuffer :=
  (runPayload instr.payload,
    match buf with
    | StatusBuffer.inited _ => StatusBuffer.inited true
    | b => b)

/-- Modelled from the spec: non-blocking poll of the completion flag. -/
def QueryInstructionStatusDone (_stream : Stream) (buf : StatusBuffer) :
    Bool :=
  match buf with
  | StatusBuffer.inited d => d
  | _ => false

/-- Modelled from the spec: `DeleteInstructionStatus` releases the
buffer's resources; it succeeds exactly on a buffer inside its
`Init`/`Delete` lifecycle. -/
def DeleteInstructionStatus (_stream : Stream) (buf : StatusBuffer) :
    Option StatusBuffer :=
  match buf with
  | StatusBuffer.inited _ => some StatusBuffer.deleted
  | _ => none

/-- Events a scheduler may interleave between `Init` and `Delete`:
executing the instruction and polling the status. -/
inductive LifecycleEvent where
  | evCompute (instr : Instruction)
  | evQuery
deriving DecidableEq, Repr

/-- Effect of one lifecycle event on the status buffer: `Compute` may set
the flag; a `Query` is read-only. -/
def stepEvent (s : Stream) (b : StatusBuffer) : LifecycleEvent → StatusBuffer
  | LifecycleEvent.evCompute instr => (Compute s instr b).2
  | LifecycleEvent.evQuery => b

/-- A fixed sample stream used to instantiate witnesses. -/
def sampleStream : Stream :=
  { thread_ctx := ⟨0⟩, device := ⟨0, DeviceType.kCPU⟩,
    stream_role := StreamRole.kCompute,
    stream_type_ := StreamTypeTag.deviceHelper, device_ctx := none }

/-- Recompose a little-endian byte list; inverse of `bytesLE`. -/
def fromBytesLE : List Nat → Nat
  | [] => 0
  | b :: bs => b + 256 * fromBytesLE bs

end OneflowVm

namespace OneflowEp

/-! ## Index/offset calculators
(`ep/common/primitive/broadcast_elementwise_unary.h`)

`T` is a C++ integer template parameter; indices and strides are embedded
as `Int` for `IndexToOffsetWithStrideCalculator` (no division occurs) and
the decomposition domain of `OffsetToIndexWithStrideCalculator` as `Nat`
(its claims range over offsets in `[0, prod dims)` with positive dims,
where C++ truncating division coincides with `Nat` division). -/

namespace IndexToOffsetWithStrideCalculator

/-- `InitStrides(dims, strides, n)` (lines 91-94): entries `n..N-1` of
`stride_` are set to 1, entries `0..n-1` copy `strides`.  The `dims`
argument is ignored by the source body. -/
def initStrides (_dims strides : List Int) (n N : Nat) : List Int :=
  (List.range N).map (fun i => if i < n then strides.getD i 0 else 1)

/-- `NdIndexToOffset(index)` (lines 66-74): accumulates
`index[i] * stride_[i]` for `i < N-1`, then adds `index[N-1]` without
multiplying by a stride. -/
def ndIndexToOffset (stride index : List Int) (N : Nat) : Int :=
  ((List.range (N - 1)).map (fun i => index.getD i 0 * stride.getD i 0)).sum
    + index.getD (N - 1) 0

/-- `NdIndexToOffset(index, n)` (lines 76-86): accumulates
`index[i] * stride_[i]` for every `i < n` (the loop runs `i < N` and
guards `i < n`). -/
def ndIndexToOffsetN (stride index : List Int) (N n : Nat) : Int :=
  ((List.range N).map
    (fun i => if i < n then index.getD i 0 * stride.getD i 0 else 0)).sum

end IndexToOffsetWithStrideCalculator

namespace OffsetToIndexWithStrideCalculator

/-- `InitFastIntegerMath(dims, n)` with `n = N` (lines 147-157): the
row-major strides, `stride_arr[N-1] = 1` and
`stride_arr[i] = dims[i+1] * stride_arr[i+1]`, i.e. the product of the
dims after position `i`.  The `FastIntegerMath` wrappers
(`fast_integer_math.h`, outside src/) are modelled from their use as exact
constant division and multiplication. -/
def stridesOf : List Nat → List Nat
  | [] => []
  | _ :: rest => rest.prod :: stridesOf rest

/-- `OffsetToNdIndex(offset, index)` (lines 114-125): for `i < N-1`,
`idx = math_helper_[i].divides(remaining)` is recorded and
`math_helper_[i].mul(idx)` subtracted from `remaining`; the last position
receives the final remainder. -/
def offsetToNdIndex : List Nat → Nat → List Nat
  | [], _ => []
  | [_], r => [r]
  | _ :: d₂ :: rest, r =>
      let s := (d₂ :: rest).prod
      let idx := r / s
      idx :: offsetToNdIndex (d₂ :: rest) (r - s * idx)

/-- Recombination of an nd-index with the row-major strides derived from
`dims`: `index[i]` times the product of `dims[i+1..N-1]`, summed over
`i`. -/
def recombine (dims index : List Nat) : Nat :=
  (List.zipWith (fun a b => a * b) index (stridesOf dims)).sum

end OffsetToIndexWithStrideCalculator

end OneflowEp

namespace OneflowVm

theorem fromBytesLE_bytesLE (w v : Nat) :
    fromBytesLE (bytesLE w v) = v % 256 ^ w := by
  induction w generalizing v with
  | zero => simp [bytesLE, fromBytesLE, Nat.mod_one]
  | succ w ih =>
      simp only [bytesLE, fromBytesLE, ih]
      rw [pow_succ, mul_comm (256 ^ w) 256, Nat.mod_mul]

theorem bytesLE_inj {v₁ v₂ : Nat} (h₁ : v₁ < 2 ^ 64) (h₂ : v₂ < 2 ^ 64)
    (h : bytesLE 8 v₁ = bytesLE 8 v₂) : v₁ = v₂ := by
  have e := congrArg fromBytesLE h
  rw [fromBytesLE_bytesLE, fromBytesLE_bytesLE] at e
  have h256 : (256 : Nat) ^ 8 = 2 ^ 64 := by norm_num
  rw [h256] at e
  rwa [Nat.mod_eq_of_lt h₁, Nat.mod_eq_of_lt h₂] at e

theorem reprBytes_inj {x y : OneflowVm.LogicalObjectId}
    (hx : x.payload < 2 ^ 64) (hy : y.payload < 2 ^ 64)
    (h : x.reprBytes = y.reprBytes) : x = y := by
  cases x with
  | mk tx vx =>
      cases y with
      | mk ty vy =>
          simp only [LogicalObjectId.reprBytes, List.cons.injEq] at h
          obtain ⟨htag, hval⟩ := h
          have : tx = ty := by
            cases tx <;> cases ty <;> simp_all [PtrTypeCase.toByte]
          subst this
          simp only [LogicalObjectId.mk.injEq, true_and]
          exact bytesLE_inj hx hy hval

end OneflowVm

/-- C1: two `LogicalObjectId`s compare equal under the byte-wise `memcmp`
equality exactly when their oneof tags and numeric payloads both agree; in
particular `Local(5)` and `Remote(5)` compare unequal. -/
theorem logical_object_id_eq_iff_tag_and_payload
    (x y : OneflowVm.LogicalObjectId)
    (hx : x.payload < 2 ^ 64) (hy : y.payload < 2 ^ 64) :
    (x.eqByMemcmp y = true ↔ (x.ptr_type = y.ptr_type ∧ x.payload = y.payload))
      ∧ (OneflowVm.LogicalObjectId.mkLocal 5).eqByMemcmp
          (OneflowVm.LogicalObjectId.mkRemote 5) = false := by
  constructor
  · constructor
    · intro h
      have hb : x.reprBytes = y.reprBytes := by
        simpa [OneflowVm.LogicalObjectId.eqByMemcmp, decide_eq_true_eq] using h
      have := OneflowVm.reprBytes_inj hx hy hb
      subst this
      exact ⟨rfl, rfl⟩
    · rintro ⟨h₁, h₂⟩
      cases x with
      | mk tx vx =>
          cases y with
          | mk ty vy =>
              cases h₁
              cases h₂
              simp [OneflowVm.LogicalObjectId.eqByMemcmp]
  · decide

/-- C1 witness: the equivalence evaluated at concrete ids. -/
theorem logical_object_id_eq_iff_tag_and_payload_witness :
    ((OneflowVm.LogicalObjectId.mkLocal 5).eqByMemcmp
        (OneflowVm.LogicalObjectId.mkLocal 5) = true ↔
      ((OneflowVm.LogicalObjectId.mkLocal 5).ptr_type =
          (OneflowVm.LogicalObjectId.mkLocal 5).ptr_type ∧
        (OneflowVm.LogicalObjectId.mkLocal 5).payload =
          (OneflowVm.LogicalObjectId.mkLocal 5).payload))
      ∧ (OneflowVm.LogicalObjectId.mkLocal 5).eqByMemcmp
          (OneflowVm.LogicalObjectId.mkRemote 5) = false :=
  logical_object_id_eq_iff_tag_and_payload
    (OneflowVm.LogicalObjectId.mkLocal 5) (OneflowVm.LogicalObjectId.mkLocal 5)
    (by norm_num [OneflowVm.LogicalObjectId.mkLocal])
    (by norm_num [OneflowVm.LogicalObjectId.mkLocal])

open OneflowVm

theorem OneflowVm.Stream.init_some_elim
    {gst : StreamRole → DeviceType → Option StreamTypeTag}
    {tc : ThreadCtx} {d : Device} {r : StreamRole} {s : Stream}
    (h : Stream.init gst tc d r = some s) :
    gst r d.enum_type = some s.stream_type_
    ∧ s = { thread_ctx := tc, device := d, stream_role := r,
            stream_type_ := s.stream_type_, device_ctx := none } := by
  unfold Stream.init at h
  cases hg : gst r d.enum_type with
  | none => rw [hg] at h; cases h
  | some st =>
      rw [hg] at h
      cases st <;>
        · simp only [StreamTypeTag.dispatchInitDeviceCtx,
            DeviceHelperStreamType.InitDeviceCtx, HostVmStreamType.InitDeviceCtx,
            Option.some.injEq] at h
          subst h
          exact ⟨rfl, rfl⟩

theorem OneflowVm.Stream.runOps_id (s : Stream) :
    ∀ ops : List StreamOp, s.runOps ops = s
  | [] => rfl
  | op :: ops => by
      cases op <;> exact Stream.runOps_id s ops

/-- C2: for the synchronous host/CPU stream type, after
`InitInstructionStatus` and a `Compute` of any instruction (a no-op payload
included), the payload has been executed within `Compute` and the status
marked done, so `QueryInstructionStatusDone` returns `true` immediately and
`DeleteInstructionStatus` then succeeds. -/
theorem sync_compute_marks_done (s : Stream) (instr : Instruction)
    (b : StatusBuffer) :
    (Compute s instr (InitInstructionStatus s b)).1 = runPayload instr.payload
    ∧ QueryInstructionStatusDone s
        (Compute s instr (InitInstructionStatus s b)).2 = true
    ∧ DeleteInstructionStatus s
        (Compute s instr (InitInstructionStatus s b)).2
        = some StatusBuffer.deleted := by
  exact ⟨rfl, rfl, rfl⟩

/-- C3: stream construction aborts (`CHECK_JUST` failure, modelled `none`)
exactly when no stream type is registered for the (role, device-kind)
pair, and for every registered pair it succeeds and resolves that stream
type. -/
theorem stream_init_aborts_iff_unregistered
    (gst : StreamRole → DeviceType → Option StreamTypeTag)
    (tc : ThreadCtx) (d : Device) (r : StreamRole) :
    Option.map Stream.stream_type (Stream.init gst tc d r)
        = gst r d.enum_type
    ∧ (Stream.init gst tc d r = none ↔ gst r d.enum_type = none) := by
  cases hg : gst r d.enum_type with
  | none =>
      unfold Stream.init
      rw [hg]
      simp
  | some st =>
      unfold Stream.init
      rw [hg]
      cases st <;>
        simp [Stream.stream_type, StreamTypeTag.dispatchInitDeviceCtx,
          DeviceHelperStreamType.InitDeviceCtx, HostVmStreamType.InitDeviceCtx]

/-- C3 witness: the resolution equation evaluated on an empty registry
(abort) and on a registry carrying `deviceHelper` (success). -/
theorem stream_init_aborts_iff_unregistered_witness :
    (Option.map Stream.stream_type (Stream.init (fun _ _ => none) ⟨0⟩
          ⟨0, DeviceType.kCPU⟩ StreamRole.kCompute) = none
      ∧ (Stream.init (fun _ _ => none) ⟨0⟩ ⟨0, DeviceType.kCPU⟩
          StreamRole.kCompute = none ↔ (none : Option StreamTypeTag) = none))
    ∧ (Option.map Stream.stream_type
          (Stream.init (fun _ _ => some StreamTypeTag.deviceHelper) ⟨0⟩
            ⟨0, DeviceType.kCPU⟩ StreamRole.kCompute)
          = some StreamTypeTag.deviceHelper
      ∧ (Stream.init (fun _ _ => some StreamTypeTag.deviceHelper) ⟨0⟩
            ⟨0, DeviceType.kCPU⟩ StreamRole.kCompute = none
          ↔ (some StreamTypeTag.deviceHelper : Option StreamTypeTag) = none)) :=
  ⟨stream_init_aborts_iff_unregistered (fun _ _ => none) ⟨0⟩
      ⟨0, DeviceType.kCPU⟩ StreamRole.kCompute,
   stream_init_aborts_iff_unregistered
      (fun _ _ => some StreamTypeTag.deviceHelper) ⟨0⟩
      ⟨0, DeviceType.kCPU⟩ StreamRole.kCompute⟩

/-- C4: a successful `__Init__` stores the stream type resolved from the
(role, device-kind) pair and the device context produced by that stream
type's `InitDeviceCtx` on the freshly initialized stream, and no later
accessor call changes the stream at all, so `stream_type_` and
`device_ctx` are assigned exactly once (Uninitialized -> Initialized is
one-way). -/
theorem stream_init_sets_fields_once
    (gst : StreamRole → DeviceType → Option StreamTypeTag)
    (tc : ThreadCtx) (d : Device) (r : StreamRole) (s : Stream)
    (h : Stream.init gst tc d r = some s) :
    gst r d.enum_type = some s.stream_type_
    ∧ s.device_ctx = (s.stream_type_.dispatchInitDeviceCtx none
        { thread_ctx := tc, device := d, stream_role := r,
          stream_type_ := s.stream_type_, device_ctx := none }).1
    ∧ ∀ ops : List StreamOp,
        (s.runOps ops).stream_type_ = s.stream_type_
        ∧ (s.runOps ops).device_ctx = s.device_ctx := by
  obtain ⟨hg, hs⟩ := Stream.init_some_elim h
  refine ⟨hg, ?_, fun ops => by rw [Stream.runOps_id]; exact ⟨rfl, rfl⟩⟩
  rw [hs]
  cases hst : s.stream_type_ <;> rfl

/-- C4 witness: the invariant evaluated on a concretely initialized
stream. -/
theorem stream_init_sets_fields_once_witness :
    (fun _ _ => some StreamTypeTag.deviceHelper : StreamRole → DeviceType →
        Option StreamTypeTag) StreamRole.kCompute
        (Device.mk 0 DeviceType.kCPU).enum_type = some sampleStream.stream_type_
    ∧ sampleStream.device_ctx = (sampleStream.stream_type_.dispatchInitDeviceCtx
        none { thread_ctx := ⟨0⟩, device := ⟨0, DeviceType.kCPU⟩,
               stream_role := StreamRole.kCompute,
               stream_type_ := sampleStream.stream_type_,
               device_ctx := none }).1
    ∧ ((sampleStream.runOps [StreamOp.opDeviceId, StreamOp.opStreamType]).stream_type_
          = sampleStream.stream_type_
        ∧ (sampleStream.runOps [StreamOp.opDeviceId, StreamOp.opStreamType]).device_ctx
          = sampleStream.device_ctx) :=
  ⟨(stream_init_sets_fields_once (fun _ _ => some StreamTypeTag.deviceHelper)
      ⟨0⟩ ⟨0, DeviceType.kCPU⟩ StreamRole.kCompute sampleStream rfl).1,
   (stream_init_sets_fields_once (fun _ _ => some StreamTypeTag.deviceHelper)
      ⟨0⟩ ⟨0, DeviceType.kCPU⟩ StreamRole.kCompute sampleStream rfl).2.1,
   (stream_init_sets_fields_once (fun _ _ => some StreamTypeTag.deviceHelper)
      ⟨0⟩ ⟨0, DeviceType.kCPU⟩ StreamRole.kCompute sampleStream rfl).2.2
      [StreamOp.opDeviceId, StreamOp.opStreamType]⟩

/-- C5: `device_id()` delegates to the owned device handle, so for every
successfully initialized stream it equals the `device_id()` of the device
handle passed at construction (the handle itself is stored, not a copy of
the id). -/
theorem stream_device_id_reads_through
    (gst : StreamRole → DeviceType → Option StreamTypeTag)
    (tc : ThreadCtx) (d : Device) (r : StreamRole) (s : Stream)
    (h : Stream.init gst tc d r = some s) :
    s.device = d ∧ s.device_id = d.device_id := by
  obtain ⟨-, hs⟩ := Stream.init_some_elim h
  rw [hs]
  exact ⟨rfl, rfl⟩

/-- C5 witness: the read-through evaluated on a concretely initialized
stream with device id 7. -/
theorem stream_device_id_reads_through_witness :
    (OneflowVm.Stream.mk ⟨0⟩ ⟨7, DeviceType.kCPU⟩ StreamRole.kCompute
        StreamTypeTag.deviceHelper none).device
      = Device.mk 7 DeviceType.kCPU
    ∧ (OneflowVm.Stream.mk ⟨0⟩ ⟨7, DeviceType.kCPU⟩ StreamRole.kCompute
        StreamTypeTag.deviceHelper none).device_id
      = (Device.mk 7 DeviceType.kCPU).device_id :=
  stream_device_id_reads_through
    (fun _ _ => some StreamTypeTag.deviceHelper) ⟨0⟩ ⟨7, DeviceType.kCPU⟩
    StreamRole.kCompute
    (OneflowVm.Stream.mk ⟨0⟩ ⟨7, DeviceType.kCPU⟩ StreamRole.kCompute
      StreamTypeTag.deviceHelper none) rfl

theorem OneflowVm.foldl_stepEvent_queries (s : Stream) :
    ∀ (evs : List LifecycleEvent) (b : StatusBuffer),
      (∀ e ∈ evs, e = LifecycleEvent.evQuery) →
      evs.foldl (stepEvent s) b = b
  | [], _, _ => rfl
  | e :: evs, b, h => by
      have he : e = LifecycleEvent.evQuery := h e (List.mem_cons_self e evs)
      subst he
      exact foldl_stepEvent_queries s evs b
        (fun e' he' => h e' (List.mem_cons_of_mem _ he'))

theorem OneflowVm.foldl_stepEvent_done (s : Stream) :
    ∀ evs : List LifecycleEvent,
      evs.foldl (stepEvent s) (StatusBuffer.inited true)
        = StatusBuffer.inited true
  | [] => rfl
  | e :: evs => by
      have hstep : stepEvent s (StatusBuffer.inited true) e
          = StatusBuffer.inited true := by
        cases e <;> rfl
      rw [List.foldl_cons, hstep]
      exact foldl_stepEvent_done s evs

/-- C6: within one buffer lifecycle, the done signal starts false after
`InitInstructionStatus` and stays false as long as no execution step runs
(queries are read-only), and once `QueryInstructionStatusDone` reports
true it stays true under any further events until the buffer is
deleted. -/
theorem query_done_stable_until_delete (s : Stream) (b : StatusBuffer) :
    (∀ evs : List LifecycleEvent, (∀ e ∈ evs, e = LifecycleEvent.evQuery) →
        QueryInstructionStatusDone s
          (evs.foldl (stepEvent s) (InitInstructionStatus s b)) = false)
    ∧ (∀ b' : StatusBuffer, QueryInstructionStatusDone s b' = true →
        ∀ evs : List LifecycleEvent,
          QueryInstructionStatusDone s (evs.foldl (stepEvent s) b') = true) := by
  constructor
  · intro evs h
    rw [foldl_stepEvent_queries s evs _ h]
    rfl
  · intro b' hb evs
    have hb' : b' = StatusBuffer.inited true := by
      cases b' with
      | inited d => cases d <;> simp_all [QueryInstructionStatusDone]
      | uninitialized => simp [QueryInstructionStatusDone] at hb
      | deleted => simp [QueryInstructionStatusDone] at hb
    subst hb'
    rw [foldl_stepEvent_done]
    rfl

/-- C6 witness: polling sequences evaluated on concrete buffers. -/
theorem query_done_stable_until_delete_witness :
    QueryInstructionStatusDone sampleStream
      ([LifecycleEvent.evQuery].foldl (stepEvent sampleStream)
        (InitInstructionStatus sampleStream StatusBuffer.uninitialized)) = false
    ∧ QueryInstructionStatusDone sampleStream
        ([LifecycleEvent.evQuery, LifecycleEvent.evCompute (Instruction.mk InstructionPayload.noop)].foldl
          (stepEvent sampleStream) (StatusBuffer.inited true)) = true :=
  ⟨(query_done_stable_until_delete sampleStream StatusBuffer.uninitialized).1
      [LifecycleEvent.evQuery] (by intro e he; simpa using he),
   (query_done_stable_until_delete sampleStream StatusBuffer.uninitialized).2
      (StatusBuffer.inited true) rfl
      [LifecycleEvent.evQuery, LifecycleEvent.evCompute (Instruction.mk InstructionPayload.noop)]⟩

/-- C7: two streams initialized over the same registry with the same
(role, device-kind) pair resolve the same stream type, hence the same
`device_tag()`, while a device-context mutation of either stream in a pool
leaves the other stream's state untouched. -/
theorem same_pair_same_dispatch_independent_ctx
    (gst : StreamRole → DeviceType → Option StreamTypeTag)
    (tc₁ tc₂ : ThreadCtx) (d₁ d₂ : Device) (r : StreamRole)
    (s₁ s₂ : Stream) (hkind : d₁.enum_type = d₂.enum_type)
    (h₁ : Stream.init gst tc₁ d₁ r = some s₁)
    (h₂ : Stream.init gst tc₂ d₂ r = some s₂) :
    s₁.stream_type_ = s₂.stream_type_
    ∧ s₁.stream_type_.device_tag = s₂.stream_type_.device_tag
    ∧ (∀ c, mutateCtxAt [s₁, s₂] 0 c = [s₁.setDeviceCtx c, s₂])
    ∧ (∀ c, mutateCtxAt [s₁, s₂] 1 c = [s₁, s₂.setDeviceCtx c]) := by
  obtain ⟨hg₁, -⟩ := Stream.init_some_elim h₁
  obtain ⟨hg₂, -⟩ := Stream.init_some_elim h₂
  rw [hkind, hg₂] at hg₁
  have hst : s₁.stream_type_ = s₂.stream_type_ := by
    exact Option.some.inj hg₁.symm
  refine ⟨hst, by rw [hst], ?_, ?_⟩ <;>
    · intro c
      simp [mutateCtxAt, List.mapIdx, List.mapIdx.go]

/-- C7 witness: two concretely initialized streams on the same pair, with
a concrete context mutation. -/
theorem same_pair_same_dispatch_independent_ctx_witness :
    sampleStream.stream_type_ = sampleStream.stream_type_
    ∧ sampleStream.stream_type_.device_tag = sampleStream.stream_type_.device_tag
    ∧ mutateCtxAt [sampleStream, sampleStream] 0 (some 42)
        = [sampleStream.setDeviceCtx (some 42), sampleStream]
    ∧ mutateCtxAt [sampleStream, sampleStream] 1 (some 42)
        = [sampleStream, sampleStream.setDeviceCtx (some 42)] :=
  ⟨(same_pair_same_dispatch_independent_ctx
      (fun _ _ => some StreamTypeTag.deviceHelper) ⟨0⟩ ⟨0⟩
      ⟨0, DeviceType.kCPU⟩ ⟨0, DeviceType.kCPU⟩ StreamRole.kCompute
      sampleStream sampleStream rfl rfl rfl).1,
   (same_pair_same_dispatch_independent_ctx
      (fun _ _ => some StreamTypeTag.deviceHelper) ⟨0⟩ ⟨0⟩
      ⟨0, DeviceType.kCPU⟩ ⟨0, DeviceType.kCPU⟩ StreamRole.kCompute
      sampleStream sampleStream rfl rfl rfl).2.1,
   (same_pair_same_dispatch_independent_ctx
      (fun _ _ => some StreamTypeTag.deviceHelper) ⟨0⟩ ⟨0⟩
      ⟨0, DeviceType.kCPU⟩ ⟨0, DeviceType.kCPU⟩ StreamRole.kCompute
      sampleStream sampleStream rfl rfl rfl).2.2.1 (some 42),
   (same_pair_same_dispatch_independent_ctx
      (fun _ _ => some StreamTypeTag.deviceHelper) ⟨0⟩ ⟨0⟩
      ⟨0, DeviceType.kCPU⟩ ⟨0, DeviceType.kCPU⟩ StreamRole.kCompute
      sampleStream sampleStream rfl rfl rfl).2.2.2 (some 42)⟩

/-- C8: `DeviceHelperStreamType::InitDeviceCtx` has an empty body: it
leaves both the passed device-context slot and the stream unchanged. -/
theorem device_helper_init_device_ctx_noop (ctx : Option DeviceCtx)
    (s : Stream) :
    (DeviceHelperStreamType.InitDeviceCtx ctx s).1 = ctx
    ∧ (DeviceHelperStreamType.InitDeviceCtx ctx s).2 = s :=
  ⟨rfl, rfl⟩

open OneflowEp.IndexToOffsetWithStrideCalculator
open OneflowEp.OffsetToIndexWithStrideCalculator

theorem OneflowEp.IndexToOffsetWithStrideCalculator.map_getD_range :
    ∀ l : List Int, (List.range l.length).map (fun i => l.getD i 0) = l
  | [] => rfl
  | a :: t => by
      rw [List.length_cons, List.range_succ_eq_map, List.map_cons,
        List.map_map, List.getD_cons_zero]
      have hcomp : (fun i => (a :: t).getD i 0) ∘ Nat.succ
          = fun i => t.getD i 0 := by
        funext i
        simp [Nat.succ_eq_add_one, List.getD_cons_succ]
      rw [hcomp, map_getD_range t]

theorem OneflowEp.IndexToOffsetWithStrideCalculator.initStrides_full
    (dims strides : List Int) (N : Nat) (h : strides.length = N) :
    initStrides dims strides N N = strides := by
  subst h
  unfold initStrides
  have hcong : ∀ i ∈ List.range strides.length,
      (if i < strides.length then strides.getD i 0 else 1)
        = strides.getD i 0 := by
    intro i hi
    rw [List.mem_range] at hi
    simp [hi]
  rw [List.map_congr_left hcong, map_getD_range]

/-- C9 counterexample: for the calculator built from dims = [2,2],
strides = [3,2] with n = N = 2, the two overloads disagree on the index
[0,1]: `NdIndexToOffset(index)` yields 1 (last index added bare) while
`NdIndexToOffset(index, 2)` yields 2 (last index times `stride_[1] = 2`). -/
theorem ndIndexToOffset_overloads_disagree :
    ndIndexToOffset (initStrides [2, 2] [3, 2] 2 2) [0, 1] 2 = 1
    ∧ ndIndexToOffsetN (initStrides [2, 2] [3, 2] 2 2) [0, 1] 2 2 = 2 := by
  constructor <;> decide

/-- C9 amended: the two overloads agree on every N-element index provided
the innermost stride `strides[N-1]` equals 1 (the contiguous innermost
layout the no-`n` overload hard-codes); with any other innermost stride
they can differ. -/
theorem ndIndexToOffset_overloads_agree
    (dims strides index : List Int) (N : Nat) (hN : 0 < N)
    (hlen : strides.length = N) (hilen : index.length = N)
    (hlast : strides.getD (N - 1) 0 = 1) :
    ndIndexToOffset (initStrides dims strides N N) index N
      = ndIndexToOffsetN (initStrides dims strides N N) index N N := by
  rw [initStrides_full dims strides N hlen]
  unfold ndIndexToOffset ndIndexToOffsetN
  obtain ⟨M, rfl⟩ : ∃ M, N = M + 1 := ⟨N - 1, (Nat.succ_pred_eq_of_pos hN).symm⟩
  rw [Nat.add_sub_cancel] at hlast
  rw [Nat.add_sub_cancel]
  have hcong : ∀ i ∈ List.range (M + 1),
      (if i < M + 1 then index.getD i 0 * strides.getD i 0 else 0)
        = index.getD i 0 * strides.getD i 0 := by
    intro i hi
    rw [List.mem_range] at hi
    simp [hi]
  rw [List.map_congr_left hcong, List.range_succ, List.map_append,
    List.sum_append, List.map_singleton, List.sum_singleton, hlast, mul_one]

/-- C9 witness: the amended agreement evaluated with strides = [3,1] and
index = [1,1]. -/
theorem ndIndexToOffset_overloads_agree_witness :
    ndIndexToOffset (initStrides [2, 2] [3, 1] 2 2) [1, 1] 2
      = ndIndexToOffsetN (initStrides [2, 2] [3, 1] 2 2) [1, 1] 2 2 :=
  ndIndexToOffset_overloads_agree [2, 2] [3, 1] [1, 1] 2 (by decide)
    (by decide) (by decide) (by decide)

theorem OneflowEp.OffsetToIndexWithStrideCalculator.roundtrip_aux :
    ∀ (dims : List Nat) (offset : Nat), (∀ d ∈ dims, 0 < d) →
      offset < dims.prod →
      List.Forall₂ (fun a b => a < b) (offsetToNdIndex dims offset) dims
      ∧ recombine dims (offsetToNdIndex dims offset) = offset
  | [], offset, _, hoff => by
      have h0 : offset = 0 := Nat.lt_one_iff.mp (by simpa using hoff)
      subst h0
      exact ⟨List.Forall₂.nil, rfl⟩
  | [d], offset, _, hoff => by
      have hd : offset < d := by simpa using hoff
      refine ⟨List.Forall₂.cons hd List.Forall₂.nil, ?_⟩
      simp [recombine, offsetToNdIndex, stridesOf]
  | d :: d₂ :: rest, offset, hpos, hoff => by
      have hs : 0 < (d₂ :: rest).prod :=
        List.prod_pos (fun x hx => hpos x (List.mem_cons_of_mem _ hx))
      have hdm : offset < d * (d₂ :: rest).prod := by
        simpa [List.prod_cons] using hoff
      have hidx : offset / (d₂ :: rest).prod < d :=
        (Nat.div_lt_iff_lt_mul hs).mpr hdm
      have hrem : offset - (d₂ :: rest).prod * (offset / (d₂ :: rest).prod)
          = offset % (d₂ :: rest).prod := by
        have hdam := Nat.div_add_mod offset (d₂ :: rest).prod
        omega
      have hlt : offset % (d₂ :: rest).prod < (d₂ :: rest).prod :=
        Nat.mod_lt _ hs
      have IH := roundtrip_aux (d₂ :: rest) (offset % (d₂ :: rest).prod)
        (fun x hx => hpos x (List.mem_cons_of_mem _ hx)) hlt
      have hunf : offsetToNdIndex (d :: d₂ :: rest) offset
          = (offset / (d₂ :: rest).prod)
            :: offsetToNdIndex (d₂ :: rest) (offset % (d₂ :: rest).prod) := by
        rw [offsetToNdIndex, hrem]
      constructor
      · rw [hunf]
        exact List.Forall₂.cons hidx IH.1
      · rw [hunf]
        have hrec : recombine (d :: d₂ :: rest)
            ((offset / (d₂ :: rest).prod)
              :: offsetToNdIndex (d₂ :: rest) (offset % (d₂ :: rest).prod))
            = offset / (d₂ :: rest).prod * (d₂ :: rest).prod
              + recombine (d₂ :: rest)
                  (offsetToNdIndex (d₂ :: rest) (offset % (d₂ :: rest).prod)) := by
          simp [recombine, stridesOf]
        rw [hrec, IH.2]
        exact Nat.div_add_mod' offset (d₂ :: rest).prod

/-- C10: for positive dims and an offset below their product,
`OffsetToNdIndex` writes an index that is pointwise below the dims, and
recombining it with the row-major strides derived from the dims restores
the original offset. -/
theorem offset_to_nd_index_roundtrip (dims : List Nat) (offset : Nat)
    (hpos : ∀ d ∈ dims, 0 < d) (hoff : offset < dims.prod) :
    List.Forall₂ (fun a b => a < b) (offsetToNdIndex dims offset) dims
    ∧ recombine dims (offsetToNdIndex dims offset) = offset :=
  OneflowEp.OffsetToIndexWithStrideCalculator.roundtrip_aux dims offset
    hpos hoff

/-- C10 witness: dims = [2,3,4], offset = 17 decomposes to [1,1,1] and
recombines to 17. -/
theorem offset_to_nd_index_roundtrip_witness :
    List.Forall₂ (fun a b => a < b) (offsetToNdIndex [2, 3, 4] 17) [2, 3, 4]
    ∧ recombine [2, 3, 4] (offsetToNdIndex [2, 3, 4] 17) = 17 :=
  offset_to_nd_index_roundtrip [2, 3, 4] 17 (by decide) (by decide)
